import Mathlib

/-
Verification of the source-selection and normalization pipeline of
`bilibili_hottest_today.py`, a script that fetches the hottest video of the
day from one of two fixed endpoints, normalizes the first returned item into
a flat `Video` record, and prints a summary.

The Python program is embedded shallowly:

* decoded JSON payloads are the inductive `Json` (numbers are modelled as
  integers: every numeric field the program manipulates is an integer
  counter);
* Python dicts decoded from JSON objects are association lists with unique
  keys, looked up by first match;
* the network is a parameter `net : Request → Except FetchError Json` giving
  the decoded body or the `requests` exception for each issued request, and
  every function that fetches also returns the list of requests it issued;
* an `AttributeError` raised by calling `.get` on a non-mapping is
  `Except.error`;
* the float loop variable of `human_number` is represented exactly by a
  numerator/divisor pair, see `hnLoop` below.
-/

/-- JSON values as decoded by Python's `json` module (`null` is Python
`None`). JSON numbers are modelled as integers. -/
inductive Json where
  | null
  | bool (b : Bool)
  | num (n : Int)
  | str (s : String)
  | arr (elems : List Json)
  | obj (fields : List (String × Json))

/-- Python dict lookup as an option (`none` when the key is absent). Dicts
decoded from JSON objects have unique keys, so the first match is the match. -/
def dictGet (d : List (String × Json)) (k : String) : Option Json :=
  (d.find? (fun p => p.fst == k)).map (fun p => p.snd)

/-- Python `d.get(k, default)` on a dict: the stored value when the key is
present (even when that value is JSON null), otherwise the default. -/
def dictGetD (d : List (String × Json)) (k : String) (dflt : Json) : Json :=
  (dictGet d k).getD dflt

/-- Python `d.get(k)` on a dict: an absent key gives `None`, which coincides
with the decoding of a stored JSON null. -/
def dictGetPy (d : List (String × Json)) (k : String) : Json :=
  dictGetD d k Json.null

/-- Python truthiness of a decoded JSON value: `None`, `False`, `0`, `""`,
`[]` and `{}` are falsy, everything else is truthy. -/
def Json.isFalsy : Json → Bool
  | Json.null => true
  | Json.bool b => !b
  | Json.num n => n == 0
  | Json.str s => s == ""
  | Json.arr xs => xs.isEmpty
  | Json.obj kvs => kvs.isEmpty

/-- Python `x or default` (used at lines 97-99 of the source on the result of
`item.get(...)`): keeps a truthy value, otherwise yields the default. -/
def pyOrD (o : Option Json) (dflt : Json) : Json :=
  match o with
  | none => dflt
  | some v => if v.isFalsy then dflt else v

mutual

/-- Python `repr` of a JSON-decoded value, as used by `str` on containers.
Python quotes strings with `'` unless they contain one; the simple quote is
modelled (no claim inspects the repr of a container). -/
def pyRepr : Json → String
  | Json.null => "None"
  | Json.bool true => "True"
  | Json.bool false => "False"
  | Json.num n => toString n
  | Json.str s => "\x27" ++ s ++ "\x27"
  | Json.arr xs => "[" ++ pyReprList xs ++ "]"
  | Json.obj kvs => "\x7b" ++ pyReprObj kvs ++ "\x7d"

/-- Comma-separated reprs of the elements of a decoded JSON array. -/
def pyReprList : List Json → String
  | [] => ""
  | [x] => pyRepr x
  | x :: y :: xs => pyRepr x ++ ", " ++ pyReprList (y :: xs)

/-- Comma-separated `key: value` reprs of the fields of a decoded JSON
object. -/
def pyReprObj : List (String × Json) → String
  | [] => ""
  | [(k, v)] => "\x27" ++ k ++ "\x27: " ++ pyRepr v
  | (k, v) :: p :: xs => "\x27" ++ k ++ "\x27: " ++ pyRepr v ++ ", " ++ pyReprObj (p :: xs)

end

/-- Python `str(x)` of a JSON-decoded value (an f-string interpolation):
strings stay themselves, everything else renders via `repr`. -/
def pyStr : Json → String
  | Json.str s => s
  | j => pyRepr j

/-- Python `.get` on an arbitrary decoded value: mappings behave like
`dict.get`; any other receiver (including `None`) raises `AttributeError`,
modelled as `Except.error ()`. -/
def Json.pyGetD : Json → String → Json → Except Unit Json
  | Json.obj kvs, k, dflt => Except.ok (dictGetD kvs k dflt)
  | _, _, _ => Except.error ()

/-- Python `.get` with no default on an arbitrary decoded value. -/
def Json.pyGet (j : Json) (k : String) : Except Unit Json :=
  j.pyGetD k Json.null

/-- The `Video` dataclass (lines 45-59). Python dataclass fields carry no
runtime type checks, so each field holds the raw JSON-decoded value assigned
to it; `Json.null` is Python `None`, the "unknown" value. -/
structure Video where
  title : Json
  bvid : Json
  aid : Json
  author : Json
  author_mid : Json
  view : Json
  like : Json
  coin : Json
  favorite : Json
  share : Json
  danmaku : Json
  duration : Json
  url : Json

/-- Lines 96-115: `_video_from_payload`. `stat = item.get("stat") or ` empty
dict, likewise `owner`; `bvid = item.get("bvid") or ""`; `url` is the fixed
prefix interpolated with `bvid` when `bvid` is truthy, else `""`. The `.get`
calls on `stat` and `owner` succeed exactly when both are mappings after the
`or` defaulting, which the match captures; otherwise Python raises
`AttributeError` at the first such call. The source binds `stat`, `owner`,
`bvid` and `url` to locals first; they are inlined here (they are pure, so
only the exception site moves, and all `AttributeError` sites are
identified). -/
def _video_from_payload (item : List (String × Json)) : Except Unit Video :=
  match pyOrD (dictGet item "stat") (Json.obj []),
        pyOrD (dictGet item "owner") (Json.obj []) with
  | Json.obj s, Json.obj o =>
    Except.ok
      { title := dictGetD item "title" (Json.str "")
        bvid := pyOrD (dictGet item "bvid") (Json.str "")
        aid := dictGetPy item "aid"
        author := dictGetD o "name" (Json.str "")
        author_mid := dictGetPy o "mid"
        view := dictGetPy s "view"
        like := dictGetPy s "like"
        coin := dictGetPy s "coin"
        favorite := dictGetPy s "favorite"
        share := dictGetPy s "share"
        danmaku := dictGetPy s "danmaku"
        duration := dictGetPy item "duration"
        url := if (pyOrD (dictGet item "bvid") (Json.str "")).isFalsy then Json.str ""
               else Json.str ("https://www.bilibili.com/video/" ++
                 pyStr (pyOrD (dictGet item "bvid") (Json.str ""))) }
  | _, _ => Except.error ()

/-- Lines 87-93: `_first_dict` returns the first element when it is a
mapping; any other first element (or an empty list) gives `None`, and later
elements are never looked at because of the unconditional `break`. -/
def _first_dict : List Json → Option (List (String × Json))
  | [] => none
  | x :: _ =>
    match x with
    | Json.obj kvs => some kvs
    | _ => none

/-- Line 33. -/
def RANKING_URL : String := "https://api.bilibili.com/x/web-interface/ranking/v2"

/-- Line 34. -/
def POPULAR_URL : String := "https://api.bilibili.com/x/web-interface/popular"

/-- Line 35. -/
def REQUEST_TIMEOUT : Nat := 15

/-- Lines 36-42. -/
def DEFAULT_HEADERS : List (String × String) :=
  [("User-Agent",
    "Mozilla/5.0 (Windows NT 10.0; Win64; x64) AppleWebKit/537.36 " ++
      "(KHTML, like Gecko) Chrome/124 Safari/537.36"),
   ("Referer", "https://www.bilibili.com/")]

/-- One HTTP GET as issued by `session.get` in `_fetch_json`: the url, the
query parameters, the headers and the timeout passed to `requests`. -/
structure Request where
  url : String
  params : List (String × Json)
  headers : List (String × String)
  timeout : Nat

/-- The `requests` exceptions this program can see: transport failures
(`NetworkError`, including timeouts), non-2xx statuses surfaced by
`raise_for_status` (`HttpError`), and bodies that fail to decode as JSON
(`DecodeError`). All three are subclasses of `requests.RequestException`. -/
inductive FetchError where
  | network
  | http (status : Nat)
  | decodeFailure

/-- An exception escaping `get_top_from_ranking` / `get_top_from_popular`:
either a `requests.RequestException` from the fetch, or an `AttributeError`
from calling `.get` on a non-mapping part of the payload. -/
inductive PyErr where
  | req (e : FetchError)
  | attr

/-- Lines 71-84: `_fetch_json` performs exactly one GET with the fixed
headers and the fixed timeout and returns the decoded body. The network is
the parameter `net`; the second component records the requests issued. -/
def _fetch_json (net : Request → Except FetchError Json) (url : String)
    (params : List (String × Json)) : Except FetchError Json × List Request :=
  let req : Request :=
    { url := url, params := params, headers := DEFAULT_HEADERS, timeout := REQUEST_TIMEOUT }
  (net req, [req])

/-- Line 120: `params = dict(rid=0, type="all", day=1)` for the ranking
endpoint. -/
def rankingParams : List (String × Json) :=
  [("rid", Json.num 0), ("type", Json.str "all"), ("day", Json.num 1)]

/-- Line 133: `params = dict(ps=20, pn=1)` for the popular endpoint. -/
def popularParams : List (String × Json) :=
  [("ps", Json.num 20), ("pn", Json.num 1)]

/-- The one request `get_top_from_ranking` issues. -/
def rankingRequest : Request :=
  { url := RANKING_URL, params := rankingParams,
    headers := DEFAULT_HEADERS, timeout := REQUEST_TIMEOUT }

/-- The one request `get_top_from_popular` issues. -/
def popularRequest : Request :=
  { url := POPULAR_URL, params := popularParams,
    headers := DEFAULT_HEADERS, timeout := REQUEST_TIMEOUT }

/-- Lines 118-128: `get_top_from_ranking`. The nested list sits at
`data.list.list`; the first two `.get` calls default to an empty dict, the
third returns `None` when absent; a non-list there is "no video found". -/
def get_top_from_ranking (net : Request → Except FetchError Json) :
    Except PyErr (Option Video) × List Request :=
  let fetched := _fetch_json net RANKING_URL rankingParams
  (match fetched.fst with
   | Except.error e => Except.error (PyErr.req e)
   | Except.ok data =>
     match data.pyGetD "data" (Json.obj []) with
     | Except.error _ => Except.error PyErr.attr
     | Except.ok d1 =>
       match d1.pyGetD "list" (Json.obj []) with
       | Except.error _ => Except.error PyErr.attr
       | Except.ok d2 =>
         match d2.pyGet "list" with
         | Except.error _ => Except.error PyErr.attr
         | Except.ok nested =>
           match nested with
           | Json.arr xs =>
             match _first_dict xs with
             | none => Except.ok none
             | some item =>
               match _video_from_payload item with
               | Except.error _ => Except.error PyErr.attr
               | Except.ok v => Except.ok (some v)
           | _ => Except.ok none,
   fetched.snd)

/-- Lines 131-141: `get_top_from_popular`. The list sits at `data.list`. -/
def get_top_from_popular (net : Request → Except FetchError Json) :
    Except PyErr (Option Video) × List Request :=
  let fetched := _fetch_json net POPULAR_URL popularParams
  (match fetched.fst with
   | Except.error e => Except.error (PyErr.req e)
   | Except.ok data =>
     match data.pyGetD "data" (Json.obj []) with
     | Except.error _ => Except.error PyErr.attr
     | Except.ok d1 =>
       match d1.pyGet "list" with
       | Except.error _ => Except.error PyErr.attr
       | Except.ok lst =>
         match lst with
         | Json.arr xs =>
           match _first_dict xs with
           | none => Except.ok none
           | some item =>
             match _video_from_payload item with
             | Except.error _ => Except.error PyErr.attr
             | Except.ok v => Except.ok (some v)
         | _ => Except.ok none,
   fetched.snd)

/-- Python `str.lower()` on the ASCII mode strings this program compares. -/
def pyLower (s : String) : String :=
  String.mk (s.data.map Char.toLower)

/-- Lines 144-157: `pick_source`. Exact mode strings dispatch directly after
lowercasing; any other string takes the `auto` path: try ranking, return its
video if truthy (a dataclass instance is always truthy, so this is "if not
None"), catch only `requests.RequestException` and fall through to popular;
an `AttributeError` is not caught and propagates. -/
def pick_source (net : Request → Except FetchError Json) (source : String) :
    Except PyErr (Option Video) × List Request :=
  if pyLower source = "ranking" then get_top_from_ranking net
  else if pyLower source = "popular" then get_top_from_popular net
  else
    match (get_top_from_ranking net).fst with
    | Except.ok (some v) => (Except.ok (some v), (get_top_from_ranking net).snd)
    | Except.ok none =>
      ((get_top_from_popular net).fst,
       (get_top_from_ranking net).snd ++ (get_top_from_popular net).snd)
    | Except.error (PyErr.req _) =>
      ((get_top_from_popular net).fst,
       (get_top_from_ranking net).snd ++ (get_top_from_popular net).snd)
    | Except.error PyErr.attr => (Except.error PyErr.attr, (get_top_from_ranking net).snd)

/-- Round the exact value `a / b` (with `b > 0`) to the nearest integer,
ties to even. This is the rounding `f"...:.1f"` applies to the scaled value;
Python rounds the binary double, the model rounds the exact rational — the
two agree whenever the scaled value carries at most one decimal digit, as in
every claimed case. -/
def roundHalfEvenFrac (a b : Int) : Int :=
  let f := Int.fdiv a b
  let rem2 := 2 * (a - f * b)
  if rem2 < b then f else if b < rem2 then f + 1 else if f % 2 = 0 then f else f + 1

/-- Python `s.rstrip(c)`: remove every trailing occurrence of the
character. -/
def pyRstrip (s : String) (c : Char) : String :=
  String.mk (List.reverse (List.dropWhile (fun a => a == c) (List.reverse s.data)))

/-- Line 170: the f-string `f"...:.1f"` applied to the exact value `a / b`
(`b > 0`): one decimal digit, sign in front. -/
def format1f (a b : Int) : String :=
  let t := roundHalfEvenFrac (10 * a) b
  let m := t.natAbs
  (if t < 0 then "-" else "") ++ toString (m / 10) ++ "." ++ toString (m % 10)

/-- Lines 164-169: the `for unit in ("", "K", "M", "B") ... else: unit = "T"`
loop. The float `num` always equals `n / d` exactly for the divisor `d`
accumulated here, so the loop carries `d` instead of `num`; the `break`
test `abs(num) < 1000` is `natAbs n < 1000 * d`. When the list is exhausted
without a break the divisor has been multiplied a fourth time and the
`else` clause sets the unit to `"T"`. -/
def hnLoop (n : Int) : Nat → List String → Nat × String
  | d, [] => (d, "T")
  | d, unit :: units =>
    if n.natAbs < 1000 * d then (d, unit) else hnLoop n (d * 1000) units

/-- Lines 160-171: `human_number`. `None` renders as `"-"`; otherwise the
abbreviation loop picks the unit, the value is formatted with one decimal
digit and the trailing zero and point are stripped. -/
def human_number : Option Int → String
  | none => "-"
  | some n =>
    let p := hnLoop n 1 ["", "K", "M", "B"]
    pyRstrip (pyRstrip (format1f n (Int.ofNat p.fst)) '0') '.' ++ p.snd

/-- Python `float(x)` restricted to what `human_number` can receive from a
dataclass field (`None` is rejected before the call): booleans convert to 0
or 1, numbers stay, integer-literal strings parse, and any other value
raises (`TypeError` / `ValueError`), modelled as `Except.error ()`.
Fractional numeric strings are not modelled; no claim reaches them. -/
def pyFloatInt : Json → Except Unit Int
  | Json.num n => Except.ok n
  | Json.bool true => Except.ok 1
  | Json.bool false => Except.ok 0
  | Json.str s =>
    match s.toInt? with
    | some n => Except.ok n
    | none => Except.error ()
  | _ => Except.error ()

/-- `human_number(video.field)` as called from `main`: the field holds a raw
JSON value; `None` short-circuits to `"-"`, anything else goes through
`float`. -/
def humanOfJson (j : Json) : Except Unit String :=
  match j with
  | Json.null => Except.ok "-"
  | j => (pyFloatInt j).map (fun n => human_number (some n))

/-- Lines 205-216: the stdout lines of a successful run. `print` with
several arguments joins them with single spaces, hence the two spaces after
`- Stats: `. Fails only when `float` raises inside `human_number` on a
malformed counter. -/
def summaryLines (v : Video) : Except Unit (List String) :=
  match humanOfJson v.view, humanOfJson v.like, humanOfJson v.coin,
        humanOfJson v.favorite, humanOfJson v.share with
  | Except.ok hv, Except.ok hl, Except.ok hc, Except.ok hf, Except.ok hs =>
    Except.ok
      ["Hottest video today",
       "- Title:  " ++ pyStr v.title,
       "- Author: " ++ pyStr v.author,
       "- URL:    " ++ pyStr v.url,
       "- Stats:  views " ++ hv ++ ", likes " ++ hl ++ ", coins " ++ hc ++
         ", favorites " ++ hf ++ ", shares " ++ hs]
  | _, _, _, _, _ => Except.error ()

/-- The run configuration `main` sees: whether `import requests` succeeded,
the validated `--source` choice, the optional `--json PATH`, and whether
writing that file would succeed (`OSError` otherwise). -/
structure RunConfig where
  requestsAvailable : Bool
  source : String
  jsonPath : Option String
  jsonWriteOk : Bool

/-- Lines 174-227: `main` (primed only because Lean reserves the name). Returns the exit code and the stdout lines;
stderr is not modelled. `sys.exit(2)` in `_ensure_requests` when `requests`
is missing; any exception out of `pick_source` (both the `RequestException`
and the generic handler) returns 1; `None` prints "No video found." and
returns 1; a failed `--json` write returns 1 after the summary; otherwise 0.
An uncaught exception while printing the summary is `Except.error`. -/
def main' (net : Request → Except FetchError Json) (cfg : RunConfig) :
    Except Unit (Nat × List String) :=
  if cfg.requestsAvailable then
    match (pick_source net cfg.source).fst with
    | Except.error _ => Except.ok (1, [])
    | Except.ok none => Except.ok (1, ["No video found."])
    | Except.ok (some v) =>
      match summaryLines v with
      | Except.error e => Except.error e
      | Except.ok lines =>
        match cfg.jsonPath with
        | none => Except.ok (0, lines)
        | some p =>
          if cfg.jsonWriteOk then Except.ok (0, lines ++ ["Saved JSON to " ++ p])
          else Except.ok (1, lines)
  else Except.ok (2, [])

/-- The stored value under a key is absent or JSON null — the cases the spec
calls "absent or null". -/
def isAbsentOrNull : Option Json → Bool
  | none => true
  | some Json.null => true
  | some _ => false

/-- The stored value is absent, null, or a mapping. -/
def isObjOrAbsentOrNull : Option Json → Bool
  | some (Json.obj _) => true
  | o => isAbsentOrNull o

/-- The stored value is absent, null, or a string. -/
def isStrOrAbsentOrNull : Option Json → Bool
  | some (Json.str _) => true
  | o => isAbsentOrNull o

/-- The stored value is a mapping. -/
def isObjJ : Json → Bool
  | Json.obj _ => true
  | _ => false

/-- A counter key is effectively absent: its block is absent or null, or the
block is a mapping in which the key is absent or null. -/
def counterAbsent (o : Option Json) (k : String) : Bool :=
  match o with
  | some (Json.obj kvs) => isAbsentOrNull (dictGet kvs k)
  | o => isAbsentOrNull o

/-- The ranking helper always issues exactly its one request. -/
theorem get_top_from_ranking_trace (net : Request → Except FetchError Json) :
    (get_top_from_ranking net).snd = [rankingRequest] := rfl

/-- The popular helper always issues exactly its one request. -/
theorem get_top_from_popular_trace (net : Request → Except FetchError Json) :
    (get_top_from_popular net).snd = [popularRequest] := rfl

/-- The body of the C7 scenario: the ranking endpoint's decoded response. -/
def rankingScenarioBody : Json :=
  Json.obj [("data", Json.obj [("list", Json.obj [("list", Json.arr
    [Json.obj [("title", Json.str "A"), ("bvid", Json.str "BV1"),
               ("stat", Json.obj [("view", Json.num 2500)]),
               ("owner", Json.obj [("name", Json.str "X")])]])])])]

/-- C7: when the ranking endpoint's decoded body is
`{"data":{"list":{"list":[{"title":"A","bvid":"BV1","stat":{"view":2500},"owner":{"name":"X"}}]}}}`,
the ranking path yields the record with title "A", bvid "BV1", author "X",
view 2500, url "https://www.bilibili.com/video/BV1", and every other
optional field unknown (None). -/
theorem ranking_scenario_record :
    get_top_from_ranking (fun _ => Except.ok rankingScenarioBody) =
      (Except.ok (some
        { title := Json.str "A", bvid := Json.str "BV1", aid := Json.null,
          author := Json.str "X", author_mid := Json.null,
          view := Json.num 2500, like := Json.null, coin := Json.null,
          favorite := Json.null, share := Json.null, danmaku := Json.null,
          duration := Json.null,
          url := Json.str "https://www.bilibili.com/video/BV1" }),
       [rankingRequest]) := rfl

/-- C4: in `ranking` or `popular` mode the trace is exactly the one request
to the corresponding endpoint — the other endpoint is never called —
whatever the network returns (found record, empty result, or error). -/
theorem single_mode_single_fetch (net : Request → Except FetchError Json) :
    (pick_source net "ranking").snd = [rankingRequest] ∧
    (pick_source net "popular").snd = [popularRequest] ∧
    List.countP (fun r => r.url == POPULAR_URL) (pick_source net "ranking").snd = 0 ∧
    List.countP (fun r => r.url == RANKING_URL) (pick_source net "popular").snd = 0 :=
  ⟨rfl, rfl, rfl, rfl⟩

/-- In the K range the abbreviation loop stops at divisor 1000. -/
theorem hnLoop_unit_K (n : Int) (h1 : 1000 ≤ n) (h2 : n < 1000000) :
    hnLoop n 1 ["", "K", "M", "B"] = (1000, "K") := by
  simp only [hnLoop]
  rw [if_neg (by omega), if_pos (by omega)]

/-- In the M range the abbreviation loop stops at divisor 10^6. -/
theorem hnLoop_unit_M (n : Int) (h1 : 1000000 ≤ n) (h2 : n < 1000000000) :
    hnLoop n 1 ["", "K", "M", "B"] = (1000000, "M") := by
  simp only [hnLoop]
  rw [if_neg (by omega), if_neg (by omega), if_pos (by omega)]

/-- In the B range the abbreviation loop stops at divisor 10^9. -/
theorem hnLoop_unit_B (n : Int) (h1 : 1000000000 ≤ n) (h2 : n < 1000000000000) :
    hnLoop n 1 ["", "K", "M", "B"] = (1000000000, "B") := by
  simp only [hnLoop]
  rw [if_neg (by omega), if_neg (by omega), if_neg (by omega), if_pos (by omega)]

/-- From 10^12 on, the loop exhausts and the for-else sets the unit to T. -/
theorem hnLoop_unit_T (n : Int) (h1 : 1000000000000 ≤ n) :
    hnLoop n 1 ["", "K", "M", "B"] = (1000000000000, "T") := by
  simp only [hnLoop]
  rw [if_neg (by omega), if_neg (by omega), if_neg (by omega), if_neg (by omega)]

/-- C6: the abbreviation satisfies the five pinned values, and in general a
present counter gets the suffix K, M, B, or T at each factor-of-1000
threshold (the prefix `s` below is the one-decimal rendering with the
trailing zero and point stripped, see `human_number`). -/
theorem human_number_spec :
    human_number none = "-" ∧
    human_number (some 999) = "999" ∧
    human_number (some 1000) = "1K" ∧
    human_number (some 1500) = "1.5K" ∧
    human_number (some 1000000) = "1M" ∧
    (∀ n : Int, 1000 ≤ n → n < 1000000 → ∃ s, human_number (some n) = s ++ "K") ∧
    (∀ n : Int, 1000000 ≤ n → n < 1000000000 → ∃ s, human_number (some n) = s ++ "M") ∧
    (∀ n : Int, 1000000000 ≤ n → n < 1000000000000 → ∃ s, human_number (some n) = s ++ "B") ∧
    (∀ n : Int, 1000000000000 ≤ n → ∃ s, human_number (some n) = s ++ "T") := by
  refine ⟨rfl, by decide, by decide, by decide, by decide, ?_, ?_, ?_, ?_⟩
  · intro n h1 h2
    refine ⟨pyRstrip (pyRstrip (format1f n (Int.ofNat 1000)) '0') '.', ?_⟩
    simp only [human_number]
    rw [hnLoop_unit_K n h1 h2]
  · intro n h1 h2
    refine ⟨pyRstrip (pyRstrip (format1f n (Int.ofNat 1000000)) '0') '.', ?_⟩
    simp only [human_number]
    rw [hnLoop_unit_M n h1 h2]
  · intro n h1 h2
    refine ⟨pyRstrip (pyRstrip (format1f n (Int.ofNat 1000000000)) '0') '.', ?_⟩
    simp only [human_number]
    rw [hnLoop_unit_B n h1 h2]
  · intro n h1
    refine ⟨pyRstrip (pyRstrip (format1f n (Int.ofNat 1000000000000)) '0') '.', ?_⟩
    simp only [human_number]
    rw [hnLoop_unit_T n h1]

/-- Witness for C6 at the concrete counter 5000. -/
theorem human_number_spec_witness :
    (1000 : Int) ≤ 5000 ∧ (5000 : Int) < 1000000 ∧
    ∃ s, human_number (some 5000) = s ++ "K" :=
  ⟨by decide, by decide,
   human_number_spec.2.2.2.2.2.1 5000 (by decide) (by decide)⟩

/-- C1: in auto mode, when the ranking path raises a recognized
`requests` error (NetworkError / HttpError / DecodeError) or returns no
video, the popular path is fetched exactly once and its outcome — success,
empty, or its own error — is the final outcome, unchanged. -/
theorem auto_fallback_popular_once (net : Request → Except FetchError Json)
    (h : (∃ e, (get_top_from_ranking net).fst = Except.error (PyErr.req e)) ∨
         (get_top_from_ranking net).fst = Except.ok none) :
    (pick_source net "auto").fst = (get_top_from_popular net).fst ∧
    List.countP (fun r => r.url == POPULAR_URL) (pick_source net "auto").snd = 1 := by
  have hsnd : (pick_source net "auto").snd = [rankingRequest, popularRequest] := by
    unfold pick_source
    rw [if_neg (by decide), if_neg (by decide)]
    rcases h with ⟨e, he⟩ | he <;> rw [he] <;> rfl
  have hfst : (pick_source net "auto").fst = (get_top_from_popular net).fst := by
    unfold pick_source
    rw [if_neg (by decide), if_neg (by decide)]
    rcases h with ⟨e, he⟩ | he <;> rw [he]
  refine ⟨hfst, ?_⟩
  rw [hsnd]
  decide

/-- A network on which ranking fails with a transport error and popular
responds with a well-formed but empty feed. -/
def netRankingDown : Request → Except FetchError Json :=
  fun r => if r.url == RANKING_URL then Except.error FetchError.network
           else Except.ok (Json.obj [("data", Json.obj [("list", Json.arr [])])])

/-- Witness for C1: with ranking down, auto returns exactly the popular
outcome and popular is fetched once. -/
theorem auto_fallback_popular_once_witness :
    ((∃ e, (get_top_from_ranking netRankingDown).fst = Except.error (PyErr.req e)) ∨
      (get_top_from_ranking netRankingDown).fst = Except.ok none) ∧
    (pick_source netRankingDown "auto").fst = (get_top_from_popular netRankingDown).fst ∧
    List.countP (fun r => r.url == POPULAR_URL) (pick_source netRankingDown "auto").snd = 1 :=
  ⟨Or.inl ⟨FetchError.network, rfl⟩,
   auto_fallback_popular_once netRankingDown (Or.inl ⟨FetchError.network, rfl⟩)⟩

/-- Whatever the mode and the network, the trace is one of the three
possible request lists. -/
theorem pick_source_trace_cases (net : Request → Except FetchError Json) (source : String) :
    (pick_source net source).snd = [rankingRequest] ∨
    (pick_source net source).snd = [popularRequest] ∨
    (pick_source net source).snd = [rankingRequest, popularRequest] := by
  unfold pick_source
  by_cases h1 : pyLower source = "ranking"
  · rw [if_pos h1]
    exact Or.inl rfl
  · rw [if_neg h1]
    by_cases h2 : pyLower source = "popular"
    · rw [if_pos h2]
      exact Or.inr (Or.inl rfl)
    · rw [if_neg h2]
      rcases hres : (get_top_from_ranking net).fst with e | ov
      · rcases e with e | _
        · exact Or.inr (Or.inr rfl)
        · exact Or.inl rfl
      · rcases ov with _ | v
        · exact Or.inr (Or.inr rfl)
        · exact Or.inl rfl

/-- C8: every request ever issued is one of the two fixed requests — the
ranking endpoint with `rid=0,type=all,day=1` or the popular endpoint with
`ps=20,pn=1` — and both carry the browser-like default headers (including
the Referer) and the 15-second timeout. -/
theorem fetch_fixed_requests (net : Request → Except FetchError Json)
    (source : String) (r : Request) (hr : r ∈ (pick_source net source).snd) :
    (r = rankingRequest ∨ r = popularRequest) ∧
    r.headers = DEFAULT_HEADERS ∧
    r.timeout = REQUEST_TIMEOUT ∧ REQUEST_TIMEOUT = 15 ∧
    ("Referer", "https://www.bilibili.com/") ∈ r.headers ∧
    rankingRequest.url = RANKING_URL ∧ popularRequest.url = POPULAR_URL ∧
    rankingRequest.params = [("rid", Json.num 0), ("type", Json.str "all"), ("day", Json.num 1)] ∧
    popularRequest.params = [("ps", Json.num 20), ("pn", Json.num 1)] := by
  have hcases : r = rankingRequest ∨ r = popularRequest := by
    rcases pick_source_trace_cases net source with h | h | h <;> rw [h] at hr <;>
      simp only [List.mem_cons, List.mem_singleton, List.not_mem_nil, or_false] at hr
    · exact Or.inl hr
    · exact Or.inr hr
    · exact hr
  refine ⟨hcases, ?_, ?_, rfl, ?_, rfl, rfl, rfl, rfl⟩ <;> rcases hcases with h | h <;> rw [h]
  · rfl
  · rfl
  · rfl
  · rfl
  · exact List.mem_cons_of_mem _ (List.mem_singleton_self _)
  · exact List.mem_cons_of_mem _ (List.mem_singleton_self _)

/-- Witness for C8 at the popular request in popular mode. -/
theorem fetch_fixed_requests_witness :
    (popularRequest = rankingRequest ∨ popularRequest = popularRequest) ∧
    popularRequest.headers = DEFAULT_HEADERS ∧
    popularRequest.timeout = REQUEST_TIMEOUT ∧ REQUEST_TIMEOUT = 15 ∧
    ("Referer", "https://www.bilibili.com/") ∈ popularRequest.headers ∧
    rankingRequest.url = RANKING_URL ∧ popularRequest.url = POPULAR_URL ∧
    rankingRequest.params = [("rid", Json.num 0), ("type", Json.str "all"), ("day", Json.num 1)] ∧
    popularRequest.params = [("ps", Json.num 20), ("pn", Json.num 1)] :=
  fetch_fixed_requests netRankingDown "popular" popularRequest
    (List.mem_singleton_self _)

/-- C9: `_first_dict` returns the first element exactly when it is a
mapping, never inspects later elements, and a well-formed ranking response
whose nested list starts with a non-mapping yields the NotFound outcome
(`Except.ok none`), not an error and not a later element. -/
theorem first_dict_spec :
    (_first_dict [] = none) ∧
    (∀ (kvs : List (String × Json)) (rest : List Json),
      _first_dict (Json.obj kvs :: rest) = some kvs) ∧
    (∀ (x : Json) (rest : List Json), isObjJ x = false →
      _first_dict (x :: rest) = none) ∧
    (∀ (x : Json) (rest rest2 : List Json),
      _first_dict (x :: rest) = _first_dict (x :: rest2)) ∧
    (∀ (x : Json) (rest : List Json), isObjJ x = false →
      get_top_from_ranking (fun _ => Except.ok (Json.obj [("data",
          Json.obj [("list", Json.obj [("list", Json.arr (x :: rest))])])])) =
        (Except.ok none, [rankingRequest])) := by
  refine ⟨rfl, fun kvs rest => rfl, ?_, ?_, ?_⟩
  · intro x rest h
    cases x <;> first | rfl | simp [isObjJ] at h
  · intro x rest rest2
    cases x <;> rfl
  · intro x rest h
    cases x <;> first | rfl | simp [isObjJ] at h

/-- Witness for C9: a list headed by a number gives NotFound even when a
mapping follows. -/
theorem first_dict_spec_witness :
    isObjJ (Json.num 7) = false ∧
    _first_dict [Json.num 7, Json.obj [("title", Json.str "A")]] = none :=
  ⟨by decide, first_dict_spec.2.2.1 (Json.num 7) [Json.obj [("title", Json.str "A")]] (by decide)⟩

/-- A value that is absent, null, or a mapping normalizes (after `or` with
the empty dict) to a mapping. -/
theorem pyOrD_isObj (o : Option Json) (h : isObjOrAbsentOrNull o = true) :
    ∃ kvs, pyOrD o (Json.obj []) = Json.obj kvs := by
  rcases o with _ | j
  · exact ⟨[], rfl⟩
  · cases j with
    | null => exact ⟨[], rfl⟩
    | obj kvs =>
      cases kvs with
      | nil => exact ⟨[], rfl⟩
      | cons p l => exact ⟨p :: l, rfl⟩
    | _ => simp [isObjOrAbsentOrNull, isAbsentOrNull] at h

/-- An absent-or-null value normalizes to the empty dict. -/
theorem pyOrD_empty_of_absentOrNull (o : Option Json) (h : isAbsentOrNull o = true) :
    pyOrD o (Json.obj []) = Json.obj [] := by
  rcases o with _ | j
  · rfl
  · cases j <;> simp_all [isAbsentOrNull, pyOrD, Json.isFalsy]

/-- `dict.get` of an absent-or-null key is `None`. -/
theorem dictGetPy_null (kvs : List (String × Json)) (k : String)
    (h : isAbsentOrNull (dictGet kvs k) = true) : dictGetPy kvs k = Json.null := by
  unfold dictGetPy dictGetD
  rcases hg : dictGet kvs k with _ | j
  · rfl
  · rw [hg] at h
    cases j <;> simp_all [isAbsentOrNull]

/-- If a block normalizes to the mapping `kvs` and the counter `k` is
effectively absent in the block, then `kvs.get k` is `None`. -/
theorem pyOrD_counter_null (o : Option Json) (kvs : List (String × Json)) (k : String)
    (hps : pyOrD o (Json.obj []) = Json.obj kvs)
    (hc : counterAbsent o k = true) : dictGetPy kvs k = Json.null := by
  rcases o with _ | j
  · cases hps
    rfl
  · cases j with
    | null => cases hps; rfl
    | obj kvs0 =>
      cases kvs0 with
      | nil => cases hps; rfl
      | cons p l =>
        cases hps
        exact dictGetPy_null _ _ hc
    | bool b =>
      simp [counterAbsent, isAbsentOrNull] at hc
    | num n =>
      simp [counterAbsent, isAbsentOrNull] at hc
    | str s =>
      simp [counterAbsent, isAbsentOrNull] at hc
    | arr xs =>
      simp [counterAbsent, isAbsentOrNull] at hc

/-- When the defaulted `stat` and `owner` are the mappings `s` and `o`,
`_video_from_payload` succeeds with the record read off the source text. -/
theorem video_from_payload_of_obj (item : List (String × Json))
    (s o : List (String × Json))
    (hs : pyOrD (dictGet item "stat") (Json.obj []) = Json.obj s)
    (ho : pyOrD (dictGet item "owner") (Json.obj []) = Json.obj o) :
    _video_from_payload item = Except.ok
      { title := dictGetD item "title" (Json.str "")
        bvid := pyOrD (dictGet item "bvid") (Json.str "")
        aid := dictGetPy item "aid"
        author := dictGetD o "name" (Json.str "")
        author_mid := dictGetPy o "mid"
        view := dictGetPy s "view"
        like := dictGetPy s "like"
        coin := dictGetPy s "coin"
        favorite := dictGetPy s "favorite"
        share := dictGetPy s "share"
        danmaku := dictGetPy s "danmaku"
        duration := dictGetPy item "duration"
        url := if (pyOrD (dictGet item "bvid") (Json.str "")).isFalsy then Json.str ""
               else Json.str ("https://www.bilibili.com/video/" ++
                 pyStr (pyOrD (dictGet item "bvid") (Json.str ""))) } := by
  unfold _video_from_payload
  rw [hs, ho]

/-- Conversely, a successful `_video_from_payload` forces both defaulted
blocks to be mappings and determines the record. -/
theorem video_from_payload_ok (item : List (String × Json)) (v : Video)
    (hok : _video_from_payload item = Except.ok v) :
    ∃ s o, pyOrD (dictGet item "stat") (Json.obj []) = Json.obj s ∧
      pyOrD (dictGet item "owner") (Json.obj []) = Json.obj o ∧
      v = { title := dictGetD item "title" (Json.str "")
            bvid := pyOrD (dictGet item "bvid") (Json.str "")
            aid := dictGetPy item "aid"
            author := dictGetD o "name" (Json.str "")
            author_mid := dictGetPy o "mid"
            view := dictGetPy s "view"
            like := dictGetPy s "like"
            coin := dictGetPy s "coin"
            favorite := dictGetPy s "favorite"
            share := dictGetPy s "share"
            danmaku := dictGetPy s "danmaku"
            duration := dictGetPy item "duration"
            url := if (pyOrD (dictGet item "bvid") (Json.str "")).isFalsy then Json.str ""
                   else Json.str ("https://www.bilibili.com/video/" ++
                     pyStr (pyOrD (dictGet item "bvid") (Json.str ""))) } := by
  unfold _video_from_payload at hok
  split at hok
  next s o hs ho =>
    injection hok with h
    exact ⟨s, o, hs, ho, h.symm⟩
  next hno =>
    exact absurd hok (by simp)

/-- C2 counterexample: the raw item `{"stat": null, "owner": [1]}` has a
null stat block, yet normalize raises `AttributeError` — the truthy
non-mapping owner survives the `or` defaulting and `.get` is called on a
list — so "never raises an exception" fails for the claim as stated. -/
theorem normalize_defensive_fields_cex :
    isAbsentOrNull (dictGet [("stat", Json.null), ("owner", Json.arr [Json.num 1])] "stat") = true ∧
    _video_from_payload [("stat", Json.null), ("owner", Json.arr [Json.num 1])] =
      Except.error () :=
  ⟨rfl, rfl⟩

/-- C2 (amended): for raw items whose stat and owner values are each absent,
null, or a mapping, normalize succeeds, and every counter that is
effectively absent — its block absent or null, or the key absent or null
inside a mapping block — comes out as the unknown value `None`, never the
number zero and never an exception. -/
theorem normalize_defensive_fields (item : List (String × Json))
    (hstat : isObjOrAbsentOrNull (dictGet item "stat") = true)
    (howner : isObjOrAbsentOrNull (dictGet item "owner") = true) :
    ∃ v, _video_from_payload item = Except.ok v ∧
      (counterAbsent (dictGet item "stat") "view" = true → v.view = Json.null) ∧
      (counterAbsent (dictGet item "stat") "like" = true → v.like = Json.null) ∧
      (counterAbsent (dictGet item "stat") "coin" = true → v.coin = Json.null) ∧
      (counterAbsent (dictGet item "stat") "favorite" = true → v.favorite = Json.null) ∧
      (counterAbsent (dictGet item "stat") "share" = true → v.share = Json.null) ∧
      (counterAbsent (dictGet item "stat") "danmaku" = true → v.danmaku = Json.null) ∧
      (counterAbsent (dictGet item "owner") "mid" = true → v.author_mid = Json.null) ∧
      (isAbsentOrNull (dictGet item "aid") = true → v.aid = Json.null) ∧
      (isAbsentOrNull (dictGet item "duration") = true → v.duration = Json.null) := by
  obtain ⟨s, hs⟩ := pyOrD_isObj _ hstat
  obtain ⟨o, ho⟩ := pyOrD_isObj _ howner
  refine ⟨_, video_from_payload_of_obj item s o hs ho,
    fun hc => pyOrD_counter_null _ _ _ hs hc,
    fun hc => pyOrD_counter_null _ _ _ hs hc,
    fun hc => pyOrD_counter_null _ _ _ hs hc,
    fun hc => pyOrD_counter_null _ _ _ hs hc,
    fun hc => pyOrD_counter_null _ _ _ hs hc,
    fun hc => pyOrD_counter_null _ _ _ hs hc,
    fun hc => pyOrD_counter_null _ _ _ ho hc,
    fun hc => dictGetPy_null _ _ hc,
    fun hc => dictGetPy_null _ _ hc⟩

/-- Witness for C2 (amended) on a concrete item with a null stat block and
a mapping owner whose mid is stored as null. -/
theorem normalize_defensive_fields_witness :
    ∃ v, _video_from_payload [("stat", Json.null),
        ("owner", Json.obj [("name", Json.str "N"), ("mid", Json.null)])] = Except.ok v ∧
      v.view = Json.null ∧ v.author_mid = Json.null ∧ v.aid = Json.null := by
  obtain ⟨v, hv, h1, h2, h3, h4, h5, h6, h7, h8, h9⟩ :=
    normalize_defensive_fields
      [("stat", Json.null), ("owner", Json.obj [("name", Json.str "N"), ("mid", Json.null)])]
      (by decide) (by decide)
  exact ⟨v, hv, h1 (by decide), h7 (by decide), h8 (by decide)⟩

/-- The video-url prefix is never the empty string, whatever follows it. -/
theorem url_prefix_ne_empty (s : String) :
    "https://www.bilibili.com/video/" ++ s ≠ "" := by
  intro h
  have hlen := congrArg String.length h
  rw [String.length_append] at hlen
  have h31 : ("https://www.bilibili.com/video/").length = 31 := rfl
  have h0 : ("" : String).length = 0 := rfl
  omega

/-- C3 counterexample: for the raw item `{"bvid": 0}` the normalized url is
the empty string although bvid is present, non-null and not the empty
string — the `or ""` defaulting treats every falsy value, here the number
0, like a missing bvid. -/
theorem url_iff_bvid_cex :
    dictGet [("bvid", Json.num 0)] "bvid" = some (Json.num 0) ∧
    Except.map (fun v => v.url) (_video_from_payload [("bvid", Json.num 0)]) =
      Except.ok (Json.str "") ∧
    Json.num 0 ≠ Json.null ∧ Json.num 0 ≠ Json.str "" :=
  ⟨rfl, rfl, fun h => Json.noConfusion h, fun h => Json.noConfusion h⟩

/-- C3 (amended): provided the stored bvid is absent, null, or a string (any
other falsy value also produces an empty url, see the counterexample), the
url of a successfully normalized record is empty iff bvid is absent, null,
or the empty string; otherwise it is the fixed prefix concatenated with
bvid, which is also the record's bvid field. -/
theorem url_iff_bvid (item : List (String × Json)) (v : Video)
    (hok : _video_from_payload item = Except.ok v)
    (hb : isStrOrAbsentOrNull (dictGet item "bvid") = true) :
    (v.url = Json.str "" ↔
      (dictGet item "bvid" = none ∨ dictGet item "bvid" = some Json.null ∨
       dictGet item "bvid" = some (Json.str ""))) ∧
    (∀ s, dictGet item "bvid" = some (Json.str s) → s ≠ "" →
      v.url = Json.str ("https://www.bilibili.com/video/" ++ s) ∧ v.bvid = Json.str s) := by
  obtain ⟨st, ow, hs, ho, hv⟩ := video_from_payload_ok item v hok
  subst hv
  rcases hbv : dictGet item "bvid" with _ | j
  · refine ⟨?_, ?_⟩
    · simp [pyOrD, hbv, Json.isFalsy]
    · intro s h
      cases h
  · cases j with
    | null =>
      refine ⟨?_, ?_⟩
      · simp [pyOrD, hbv, Json.isFalsy]
      · intro s h
        simp at h
    | str s0 =>
      by_cases hempty : s0 = ""
      · subst hempty
        refine ⟨?_, ?_⟩
        · simp [pyOrD, hbv, Json.isFalsy]
        · intro s h hne
          simp at h
          exact absurd h.symm hne
      · refine ⟨?_, ?_⟩
        · simp only [pyOrD, hbv, Json.isFalsy]
          rw [if_neg (by simp [hempty])]
          simp [pyStr, hbv, hempty, url_prefix_ne_empty s0]
        · intro s h hne
          simp at h
          subst h
          simp only [pyOrD, hbv, Json.isFalsy]
          rw [if_neg (by simp [hempty])]
          simp [pyStr, hempty]
    | bool b => simp [isStrOrAbsentOrNull, isAbsentOrNull, hbv] at hb
    | num n => simp [isStrOrAbsentOrNull, isAbsentOrNull, hbv] at hb
    | arr xs => simp [isStrOrAbsentOrNull, isAbsentOrNull, hbv] at hb
    | obj kvs => simp [isStrOrAbsentOrNull, isAbsentOrNull, hbv] at hb

/-- Witness for C3 (amended) at the item `{"bvid": "BV1"}`. -/
theorem url_iff_bvid_witness :
    ({ title := Json.str "", bvid := Json.str "BV1", aid := Json.null,
       author := Json.str "", author_mid := Json.null, view := Json.null,
       like := Json.null, coin := Json.null, favorite := Json.null,
       share := Json.null, danmaku := Json.null, duration := Json.null,
       url := Json.str "https://www.bilibili.com/video/BV1" } : Video).url =
      Json.str ("https://www.bilibili.com/video/" ++ "BV1") := by
  have h := url_iff_bvid [("bvid", Json.str "BV1")] _ rfl (by decide)
  exact (h.2 "BV1" rfl (by decide)).1

/-- C10 counterexample: with owner `{"name": null}` the author field of the
normalized record is the null value, not the empty string — the `.get`
default applies only to an absent key, not to a stored null. -/
theorem title_author_defaults_cex :
    Except.map (fun v => v.author)
      (_video_from_payload [("owner", Json.obj [("name", Json.null)])]) =
      Except.ok Json.null ∧
    Json.null ≠ Json.str "" :=
  ⟨rfl, fun h => Json.noConfusion h⟩

/-- C10 (amended): on a successfully normalized record, title is the empty
string when the title key is absent, and author is the empty string when
the owner block is absent or null or when a mapping owner lacks the name
key; but a name key stored as null makes author the null value, not a
string. -/
theorem title_author_defaults (item : List (String × Json)) (v : Video)
    (hok : _video_from_payload item = Except.ok v) :
    (dictGet item "title" = none → v.title = Json.str "") ∧
    (isAbsentOrNull (dictGet item "owner") = true → v.author = Json.str "") ∧
    (∀ kvs, dictGet item "owner" = some (Json.obj kvs) →
      dictGet kvs "name" = none → v.author = Json.str "") ∧
    (∀ kvs, dictGet item "owner" = some (Json.obj kvs) →
      dictGet kvs "name" = some Json.null → v.author = Json.null) := by
  obtain ⟨st, ow, hs, ho, hv⟩ := video_from_payload_ok item v hok
  subst hv
  refine ⟨?_, ?_, ?_, ?_⟩
  · intro ht
    simp [dictGetD, ht]
  · intro h
    have he := pyOrD_empty_of_absentOrNull _ h
    rw [he] at ho
    injection ho with h2
    subst h2
    rfl
  · intro kvs hkvs hname
    rw [hkvs] at ho
    cases kvs with
    | nil =>
      simp [pyOrD, Json.isFalsy] at ho
      subst ho
      rfl
    | cons p l =>
      simp [pyOrD, Json.isFalsy] at ho
      subst ho
      simp [dictGetD, hname]
  · intro kvs hkvs hname
    rw [hkvs] at ho
    cases kvs with
    | nil =>
      simp [dictGet] at hname
    | cons p l =>
      simp [pyOrD, Json.isFalsy] at ho
      subst ho
      simp [dictGetD, hname]

/-- Witness for C10 (amended) at the item with owner `{"name": null}`. -/
theorem title_author_defaults_witness :
    ({ title := Json.str "", bvid := Json.str "", aid := Json.null,
       author := Json.null, author_mid := Json.null, view := Json.null,
       like := Json.null, coin := Json.null, favorite := Json.null,
       share := Json.null, danmaku := Json.null, duration := Json.null,
       url := Json.str "" } : Video).title = Json.str "" ∧
    ({ title := Json.str "", bvid := Json.str "", aid := Json.null,
       author := Json.null, author_mid := Json.null, view := Json.null,
       like := Json.null, coin := Json.null, favorite := Json.null,
       share := Json.null, danmaku := Json.null, duration := Json.null,
       url := Json.str "" } : Video).author = Json.null := by
  have h := title_author_defaults [("owner", Json.obj [("name", Json.null)])] _ rfl
  exact ⟨h.1 rfl, h.2.2.2 [("name", Json.null)] rfl rfl⟩

/-- C5: the exit codes of `main`. 2 when the `requests` dependency is
missing; 1 on any error out of the selector (network, HTTP, decode, or an
uncaught payload error), on an empty result — in which case exactly the
line "No video found." is printed — and on a failed `--json` write; 0 on a
run that finds a video and completes all requested output. -/
theorem main_exit_codes (net : Request → Except FetchError Json) (cfg : RunConfig) :
    (cfg.requestsAvailable = false → main' net cfg = Except.ok (2, [])) ∧
    (∀ e, cfg.requestsAvailable = true →
      (pick_source net cfg.source).fst = Except.error e →
      main' net cfg = Except.ok (1, [])) ∧
    (cfg.requestsAvailable = true →
      (pick_source net cfg.source).fst = Except.ok none →
      main' net cfg = Except.ok (1, ["No video found."])) ∧
    (∀ v lines p, cfg.requestsAvailable = true →
      (pick_source net cfg.source).fst = Except.ok (some v) →
      summaryLines v = Except.ok lines → cfg.jsonPath = some p →
      cfg.jsonWriteOk = false → main' net cfg = Except.ok (1, lines)) ∧
    (∀ v lines, cfg.requestsAvailable = true →
      (pick_source net cfg.source).fst = Except.ok (some v) →
      summaryLines v = Except.ok lines → cfg.jsonPath = none →
      main' net cfg = Except.ok (0, lines)) ∧
    (∀ v lines p, cfg.requestsAvailable = true →
      (pick_source net cfg.source).fst = Except.ok (some v) →
      summaryLines v = Except.ok lines → cfg.jsonPath = some p →
      cfg.jsonWriteOk = true →
      main' net cfg = Except.ok (0, lines ++ ["Saved JSON to " ++ p])) := by
  refine ⟨?_, ?_, ?_, ?_, ?_, ?_⟩
  · intro h
    unfold main'
    rw [h]
    rfl
  · intro e h hres
    unfold main'
    rw [h, hres]
    rfl
  · intro h hres
    unfold main'
    rw [h, hres]
    rfl
  · intro v lines p h hres hsum hp hw
    unfold main'
    simp [h, hres, hsum, hp, hw]
  · intro v lines h hres hsum hp
    unfold main'
    simp [h, hres, hsum, hp]
  · intro v lines p h hres hsum hp hw
    unfold main'
    simp [h, hres, hsum, hp, hw]

/-- A network on which both feeds are well-formed but empty (the two
endpoints nest their lists differently). -/
def netEmptyFeeds : Request → Except FetchError Json :=
  fun r =>
    if r.url == RANKING_URL then
      Except.ok (Json.obj [("data", Json.obj [("list", Json.obj [("list", Json.arr [])])])])
    else
      Except.ok (Json.obj [("data", Json.obj [("list", Json.arr [])])])

/-- Witness for C5: on an empty feed in auto mode the program prints
exactly "No video found." and exits with status 1. -/
theorem main_exit_codes_witness :
    main' netEmptyFeeds
      { requestsAvailable := true, source := "auto", jsonPath := none, jsonWriteOk := true } =
      Except.ok (1, ["No video found."]) :=
  (main_exit_codes netEmptyFeeds
    { requestsAvailable := true, source := "auto", jsonPath := none,
      jsonWriteOk := true }).2.2.1 rfl (by exact rfl)
